import Mathlib

/-!
Verification of the Instagram reel downloader bot (`src/main.py`).

The development shallowly embeds the Python source:

* Python strings are `List Char` (`PyStr`); the string helpers used by the
  source (`split`, `strip`, `lower`, `endswith`, substring `in`) are modelled
  by executable Lean functions with the same semantics.
* `urllib.parse.urlparse` is modelled (for the fields the source consults:
  `netloc` and `path`) following CPython's `urlsplit`/`urlparse`
  (scheme/netloc/fragment/query/params splitting, the WHATWG control-character
  stripping, and the unbalanced-bracket `ValueError`).  The bracketed-host
  validation of very recent CPython is not modelled: no input considered here
  has a bracketed host.
* Exceptions are `Except PyStr` values carrying the exception message.
* The Telegram/Instaloader/ffmpeg/filesystem side effects of the two message
  handlers are modelled by an explicit event trace (`Event`), an explicit
  session store (`Sessions`), an explicit scratch directory (`List FileEntry`)
  and an environment (`Env`) fixing the outcome of each external call.
-/

namespace Doninsta

/-- Decidable equality for `Except`, used to evaluate the model on concrete
inputs. -/
instance {ε α : Type} [DecidableEq ε] [DecidableEq α] : DecidableEq (Except ε α) :=
  fun a b =>
    match a, b with
    | .ok x, .ok y =>
      if h : x = y then isTrue (by rw [h]) else isFalse (fun hh => h (Except.ok.inj hh))
    | .error x, .error y =>
      if h : x = y then isTrue (by rw [h]) else isFalse (fun hh => h (Except.error.inj hh))
    | .ok _, .error _ => isFalse (fun hh => Except.noConfusion hh)
    | .error _, .ok _ => isFalse (fun hh => Except.noConfusion hh)

/-- Python strings are modelled as lists of characters. -/
abbrev PyStr := List Char

/-- Embed a Lean string literal as a Python string. -/
def pyS (s : String) : PyStr := s.data

/-- Characters stripped by Python `str.strip()` with no argument
(ASCII whitespace; the exotic unicode whitespace also stripped by CPython
plays no role for the inputs considered here). -/
def pyIsSpace (c : Char) : Bool :=
  c == ' ' || c == '\t' || c == '\n' || c == '\r' || c == '\x0b' || c == '\x0c'

/-- Python `str.lower()` (ASCII case folding; the source only matches ASCII
keywords with the result). -/
def pyLower (s : PyStr) : PyStr := s.map Char.toLower

/-- Python `s.strip(chars)`: remove characters satisfying `p` from both ends. -/
def pyStrip (p : Char → Bool) (s : PyStr) : PyStr :=
  ((s.dropWhile p).reverse.dropWhile p).reverse

/-- Python `sub in s` for strings: substring containment. -/
def pyContains (sub s : PyStr) : Bool :=
  (List.range (s.length + 1)).any (fun i => sub.isPrefixOf (s.drop i))

/-- Python `s.endswith(suf)` for a single suffix. -/
def pyEndsWith (suf s : PyStr) : Bool := decide (suf <:+ s)

/-- Python `s.endswith(tuple)`: true when some listed suffix matches. -/
def pyEndsWithAny (s : PyStr) (sufs : List PyStr) : Bool :=
  sufs.any (fun suf => pyEndsWith suf s)

/-- Worker for `pySplit`; the fuel argument only forces structural recursion
and is always supplied as the length of the string being split, which the
recursion never exhausts (each step consumes at least one character). -/
def pySplitAux (sep : PyStr) : Nat → PyStr → PyStr → List PyStr
  | _, [], acc => [acc]
  | 0, s, acc => [acc ++ s]
  | fuel + 1, c :: rest, acc =>
    if sep.isPrefixOf (c :: rest) then
      acc :: pySplitAux sep fuel (rest.drop (sep.length - 1)) []
    else
      pySplitAux sep fuel rest (acc ++ [c])

/-- Python `s.split(sep)` for a nonempty separator `sep` (Python raises on an
empty separator; the source always passes a nonempty one). -/
def pySplit (sep s : PyStr) : List PyStr := pySplitAux sep s.length s []

/-- Python `s.split(c, 1)` for a single-character separator: the part before
the first occurrence of `c` and the part after it (`(s, '')` when `c ∉ s`). -/
def pyBreakChar (c : Char) (s : PyStr) : PyStr × PyStr :=
  (s.takeWhile (fun x => x != c), (s.dropWhile (fun x => x != c)).drop 1)

/-- Python `s.find(c, start)`: index of the first occurrence of `c` at or
after `start`, if any. -/
def pyFindFrom (c : Char) (start : Nat) (s : PyStr) : Option Nat :=
  ((s.drop start).findIdx? (fun x => x == c)).map (· + start)

/-- Python `s.rfind(c)`: index of the last occurrence of `c`, if any. -/
def pyRFind (c : Char) (s : PyStr) : Option Nat :=
  (s.reverse.findIdx? (fun x => x == c)).map (fun i => s.length - 1 - i)

/-! ## `urllib.parse.urlparse`

Modelled after CPython's `urllib.parse` (`urlsplit`, `_splitnetloc`,
`_splitparams`, `urlparse`).  Only the `netloc` and `path` fields are consumed
by the source, but the full splitting pipeline is reproduced because it
determines those fields. -/

/-- The result record of `urlsplit`. -/
structure SplitResult where
  scheme : PyStr
  netloc : PyStr
  path : PyStr
  query : PyStr
  fragment : PyStr
deriving DecidableEq

/-- The result record of `urlparse` (a `SplitResult` plus `params`). -/
structure ParseResult where
  scheme : PyStr
  netloc : PyStr
  path : PyStr
  params : PyStr
  query : PyStr
  fragment : PyStr
deriving DecidableEq

/-- CPython `scheme_chars`: ASCII letters, digits and `+`, `-`, `.`. -/
def schemeChar (c : Char) : Bool :=
  c.isAlpha || c.isDigit || c == '+' || c == '-' || c == '.'

/-- CPython `_WHATWG_C0_CONTROL_OR_SPACE`: C0 control characters and space,
stripped from the front of the URL. -/
def c0ControlOrSpace (c : Char) : Bool := c.toNat ≤ 0x20

/-- CPython `_UNSAFE_URL_BYTES_TO_REMOVE`: tab, CR and LF are removed from
the whole URL. -/
def isTabCrNl (c : Char) : Bool := c == '\t' || c == '\r' || c == '\n'

/-- CPython `_splitnetloc`: the netloc is everything after `//` up to the
first `/`, `?` or `#`. -/
def netlocDelim (c : Char) : Bool := c == '/' || c == '?' || c == '#'

/-- CPython `urlsplit`.  The first-character test `url[0].isascii() and
url[0].isalpha()` is `Char.isAlpha` here (Lean's `Char.isAlpha` is already
ASCII-only).  Raises (`Except.error`) exactly where CPython raises
`ValueError("Invalid IPv6 URL")`. -/
def urlsplit (url0 : PyStr) : Except PyStr SplitResult :=
  let u1 := (url0.dropWhile c0ControlOrSpace).filter (fun c => !isTabCrNl c)
  let su :=
    match u1.findIdx? (fun c => c == ':') with
    | some i =>
      if 0 < i && (u1.headD ' ').isAlpha && (u1.take i).all schemeChar then
        (pyLower (u1.take i), u1.drop (i + 1))
      else (([] : PyStr), u1)
    | none => (([] : PyStr), u1)
  let u2 := su.2
  let nu :=
    if u2.take 2 == pyS "//" then
      ((u2.drop 2).takeWhile (fun c => !netlocDelim c),
       (u2.drop 2).dropWhile (fun c => !netlocDelim c))
    else (([] : PyStr), u2)
  let netloc := nu.1
  if (netloc.contains '[' && !netloc.contains ']') ||
     (netloc.contains ']' && !netloc.contains '[') then
    Except.error (pyS "Invalid IPv6 URL")
  else
    let fu := if nu.2.contains '#' then pyBreakChar '#' nu.2 else (nu.2, ([] : PyStr))
    let qu := if fu.1.contains '?' then pyBreakChar '?' fu.1 else (fu.1, ([] : PyStr))
    Except.ok ⟨su.1, netloc, qu.1, qu.2, fu.2⟩

/-- CPython `uses_params`: schemes whose path may carry `;params`. -/
def usesParams : List PyStr :=
  [pyS "", pyS "ftp", pyS "hdl", pyS "prospero", pyS "http", pyS "imap",
   pyS "https", pyS "imaps", pyS "mailto", pyS "mms", pyS "news", pyS "nntp",
   pyS "rtsp", pyS "rtspu", pyS "sftp", pyS "shttp", pyS "sip", pyS "sips",
   pyS "snews", pyS "svn", pyS "svn+ssh", pyS "telnet", pyS "wais",
   pyS "ws", pyS "wss"]

/-- CPython `_splitparams`: split `;params` off the last path segment. -/
def splitparams (url : PyStr) : PyStr × PyStr :=
  if url.contains '/' then
    match pyRFind '/' url with
    | some j =>
      match pyFindFrom ';' j url with
      | some i => (url.take i, url.drop (i + 1))
      | none => (url, [])
    | none => (url, [])
  else
    match url.findIdx? (fun x => x == ';') with
    | some i => (url.take i, url.drop (i + 1))
    | none => (url, [])

/-- CPython `urlparse`: `urlsplit` plus params splitting for schemes in
`uses_params`. -/
def urlparse (url : PyStr) : Except PyStr ParseResult := do
  let r ← urlsplit url
  if usesParams.contains r.scheme && r.path.contains ';' then
    let pp := splitparams r.path
    pure ⟨r.scheme, r.netloc, pp.1, pp.2, r.query, r.fragment⟩
  else
    pure ⟨r.scheme, r.netloc, r.path, [], r.query, r.fragment⟩

/-! ## The link extractor (`extract_shortcode`, `src/main.py` lines 50-63) -/

/-- `extract_shortcode(url)` from `src/main.py`:

    parsed = urlparse(url)
    if not parsed.netloc.endswith(('instagram.com', 'www.instagram.com')):
        raise ValueError("Invalid Instagram URL")
    path = parsed.path.strip('/')
    if '/reel/' in path:
        return path.split('/reel/')[1].split('/')[0]
    elif '/p/' in path:
        return path.split('/p/')[1].split('/')[0]
    elif len(path.split('/')) == 1 and path:
        return path
    raise ValueError("Couldn't extract reel shortcode")

The indexings `[1]` and `[0]` are guarded by the containment tests
(`split` then yields at least two, resp. one, chunks), so the `getD`/`headD`
defaults are never consulted. -/
def extract_shortcode (url : PyStr) : Except PyStr PyStr :=
  match urlparse url with
  | .error e => .error e
  | .ok parsed =>
  if !(pyEndsWithAny parsed.netloc [pyS "instagram.com", pyS "www.instagram.com"]) then
    Except.error (pyS "Invalid Instagram URL")
  else
    let path := pyStrip (fun c => c == '/') parsed.path
    if pyContains (pyS "/reel/") path then
      pure ((pySplit (pyS "/") ((pySplit (pyS "/reel/") path).getD 1 [])).headD [])
    else if pyContains (pyS "/p/") path then
      pure ((pySplit (pyS "/") ((pySplit (pyS "/p/") path).getD 1 [])).headD [])
    else if (pySplit (pyS "/") path).length == 1 && !path.isEmpty then
      pure path
    else
      Except.error (pyS "Couldn't extract reel shortcode")

/-! ## The bot state machine (`src/main.py` lines 47-200)

Side effects are recorded as an explicit trace of `Event`s; the outcome of
each external call (Instaloader fetch, ffmpeg exit status, per-file unlink
failures) is fixed by an `Env`.  The Telegram send operations themselves are
modelled as always succeeding: the claims under verification quantify over
the fetch / file-discovery / conversion outcomes, which are the error sources
named by the spec. -/

/-- One session entry (`user_sessions[chat_id] = {'url': ..., 'shortcode': ...}`). -/
structure SessionData where
  url : PyStr
  shortcode : PyStr
deriving DecidableEq

/-- The process-wide `user_sessions` dictionary, keyed by chat id. -/
abbrev Sessions := Nat → Option SessionData

/-- `user_sessions[chat] = v` (dictionary write, unconditional overwrite). -/
def putSession (chat : Nat) (v : SessionData) (s : Sessions) : Sessions :=
  fun id => if id = chat then some v else s id

/-- `user_sessions.pop(chat, None)` (idempotent delete). -/
def popSession (chat : Nat) (s : Sessions) : Sessions :=
  fun id => if id = chat then none else s id

/-- A directory entry of the scratch directory: its name and whether it is a
regular file (`os.path.isfile`). -/
structure FileEntry where
  name : PyStr
  regular : Bool
deriving DecidableEq

/-- Observable actions of the handlers, in program order. -/
inductive Event where
  | replyTo (msg : PyStr)
  | sendMessage (msg : PyStr)
  | sendChatAction (action : PyStr)
  | fetchPost (shortcode : PyStr)
  | sendVideo (fileName caption : PyStr)
  | runFfmpeg (input output : PyStr)
  | sendAudio (fileName title : PyStr)
  | removeFile (path : PyStr)
  | logUrlError (msg : PyStr)
  | logDownloadError (msg : PyStr)
  | logFfmpegStderr (stderr : PyStr)
  | logDeleteFail (path : PyStr)
  | cleanupCall
deriving DecidableEq

/-- Outcome of the Instaloader calls (`Post.from_shortcode` +
`loader.download_post`). -/
inductive FetchOutcome where
  | ok
  | badResponse
  | genericErr (msg : PyStr)
deriving DecidableEq

/-- The environment fixing every external outcome of one attempt. -/
structure Env where
  /-- result of the Instaloader fetch -/
  fetch : FetchOutcome
  /-- directory entries written by a successful fetch -/
  fetched : List FileEntry
  /-- exit status of the ffmpeg process -/
  ffmpegExit : Nat
  /-- captured stderr of the ffmpeg process -/
  ffmpegStderr : PyStr
  /-- whether `os.unlink` fails for a given file name during cleanup -/
  unlinkFails : PyStr → Bool

/-- `DOWNLOAD_DIR = "downloads"`. -/
def DOWNLOAD_DIR : PyStr := pyS "downloads"

/-- `os.path.join(dir, name)` for the simple relative case used here. -/
def pathJoin (dir name : PyStr) : PyStr := dir ++ pyS "/" ++ name

/-- `cleanup_directory()` (`src/main.py` lines 65-73): iterate over
`os.listdir(DOWNLOAD_DIR)`; unlink every regular file; a per-file unlink
error is logged and the iteration continues.  Returns the log events and the
directory contents afterwards. -/
def cleanup_directory (env : Env) : List FileEntry → List Event × List FileEntry
  | [] => ([], [])
  | f :: rest =>
    let r := cleanup_directory env rest
    if f.regular then
      if env.unlinkFails f.name then
        (Event.logDeleteFail (pathJoin DOWNLOAD_DIR f.name) :: r.1, f :: r.2)
      else (r.1, r.2)
    else (r.1, f :: r.2)

/-- The repaired file-discovery expression of `src/main.py` lines 139-142.
As written the source is missing the closing parenthesis (and default) of the
`next(...)` call — a `SyntaxError` — but the adjacent
`if not video_file: raise FileNotFoundError(...)` check shows the evident
intent `next((f for f in os.listdir(DOWNLOAD_DIR) if f.endswith('.mp4') and
shortcode in f), None)`, which is what is modelled: the first directory entry
whose name ends in `.mp4` and contains the shortcode, if any. -/
def findVideoFile (shortcode : PyStr) (fs : List FileEntry) : Option PyStr :=
  (fs.find? (fun f => pyEndsWith (pyS ".mp4") f.name && pyContains shortcode f.name)).map
    (fun f => f.name)

/-- Result of one `process_download` run: the event trace, the session store
and the scratch directory afterwards. -/
structure DLResult where
  events : List Event
  sessions : Sessions
  fs : List FileEntry

/-- The `finally: cleanup_directory()` part of `process_download`: append the
cleanup invocation and its log events, and apply the deletions. -/
def withCleanup (env : Env) (evs : List Event) (sessions : Sessions)
    (fs : List FileEntry) : DLResult :=
  let c := cleanup_directory env fs
  ⟨evs ++ Event.cleanupCall :: c.1, sessions, c.2⟩

/-- `process_download(message)` (`src/main.py` lines 122-200), for a message
with chat id `chat` and text `text`, given session store `sessions` and
scratch directory `fs`.  Control flow mirrors the source: the no-session
guard returns before the `try`, every handled exception lands in its
`except` clause, and `cleanup_directory` runs in `finally` on every path
after the guard. -/
def process_download (env : Env) (chat : Nat) (text : PyStr)
    (sessions : Sessions) (fs : List FileEntry) : DLResult :=
  match sessions chat with
  | none => ⟨[Event.replyTo (pyS "⚠ Please send a Reel link first")], sessions, fs⟩
  | some sess =>
    let sc := sess.shortcode
    let pre : List Event := [Event.sendChatAction (pyS "typing"), Event.fetchPost sc]
    match env.fetch with
    | .badResponse =>
      withCleanup env
        (pre ++ [Event.replyTo
          (pyS "❌ Instagram error. The reel might be private or unavailable.")])
        sessions fs
    | .genericErr m =>
      withCleanup env
        (pre ++ [Event.logDownloadError m, Event.replyTo (pyS "❌ Error: " ++ m)])
        sessions fs
    | .ok =>
      let fs1 := fs ++ env.fetched
      match findVideoFile sc fs1 with
      | none =>
        withCleanup env
          (pre ++ [Event.logDownloadError (pyS "Downloaded file not found"),
                   Event.replyTo (pyS "❌ Error: " ++ pyS "Downloaded file not found")])
          sessions fs1
      | some name =>
        let filePath := pathJoin DOWNLOAD_DIR name
        if pyContains (pyS "MP4") text then
          withCleanup env
            (pre ++ [Event.sendChatAction (pyS "upload_video"),
                     Event.sendVideo name (pyS "Here's your Instagram Reel 📹"),
                     Event.removeFile filePath,
                     Event.sendMessage (pyS "✅ Download complete!")])
            (popSession chat sessions)
            (fs1.filter (fun f => f.name != name))
        else
          let audioName := sc ++ pyS ".mp3"
          let audioPath := pathJoin DOWNLOAD_DIR audioName
          if env.ffmpegExit = 0 then
            withCleanup env
              (pre ++ [Event.runFfmpeg filePath audioPath,
                       Event.sendChatAction (pyS "upload_audio"),
                       Event.sendAudio audioName (pyS "Instagram Reel Audio"),
                       Event.removeFile audioPath,
                       Event.removeFile filePath,
                       Event.sendMessage (pyS "✅ Download complete!")])
              (popSession chat sessions)
              (((fs1 ++ [FileEntry.mk audioName true]).filter (fun f => f.name != audioName)).filter
                (fun f => f.name != name))
          else
            withCleanup env
              (pre ++ [Event.runFfmpeg filePath audioPath,
                       Event.logFfmpegStderr env.ffmpegStderr,
                       Event.replyTo (pyS "❌ Audio conversion failed")])
              sessions fs1

/-- The success condition of one attempt, read off the control flow of
`process_download`: the fetch succeeded, a matching video file was found, and
either video mode was chosen or the conversion exited with status 0. -/
def attemptSucceeds (env : Env) (text sc : PyStr) (fs : List FileEntry) : Bool :=
  match env.fetch with
  | .ok =>
    (findVideoFile sc (fs ++ env.fetched)).isSome &&
      (pyContains (pyS "MP4") text || env.ffmpegExit == 0)
  | _ => false

/-! ## The link handler (`src/main.py` lines 91-120) -/

/-- The `@bot.message_handler` filter of `handle_reel_url`
(`src/main.py` lines 91-93): the message text, lowered, contains one of the
two keyworded patterns. -/
def handle_reel_url_fires (text : PyStr) : Bool :=
  pyContains (pyS "instagram.com/reel/") (pyLower text) ||
    pyContains (pyS "instagram.com/p/") (pyLower text)

/-- `clean_url = message.text.split('?')[0].strip()` (`src/main.py` line 97). -/
def clean_url (text : PyStr) : PyStr :=
  pyStrip pyIsSpace ((pySplit (pyS "?") text).headD [])

/-- `handle_reel_url(message)` (`src/main.py` lines 94-120): parse the link;
on success store the session and offer the format keyboard; on any exception
log it and reply with the invalid-URL message (the session store is then left
as it was). -/
def handle_reel_url (chat : Nat) (text : PyStr) (sessions : Sessions) :
    List Event × Sessions :=
  match extract_shortcode (clean_url text) with
  | .ok sc =>
    ([Event.sendMessage (pyS "Choose download format:")],
     putSession chat ⟨clean_url text, sc⟩ sessions)
  | .error e =>
    ([Event.logUrlError e,
      Event.replyTo (pyS "❌ Invalid Reel URL. Please send a valid public Instagram Reel link.")],
     sessions)

/-! ## Concrete sample data used by witnesses and counterexamples -/

/-- A sample stored session (its URL is of the inner-keyword shape that the
extractor does accept). -/
def sampleSession : SessionData := ⟨pyS "https://instagram.com/x/reel/SC1", pyS "SC1"⟩

/-- A sample store holding `sampleSession` for chat 1 only. -/
def sampleStore : Sessions := fun id => if id = 1 then some sampleSession else none

/-- Environment: fetch succeeds and writes a matching video file; ffmpeg
succeeds; every unlink succeeds. -/
def envOkVideo : Env := ⟨.ok, [⟨pyS "2024-01-01_SC1.mp4", true⟩], 0, [], fun _ => false⟩

/-- Environment: fetch succeeds but writes no matching file. -/
def envNoFile : Env := ⟨.ok, [⟨pyS "other.txt", true⟩], 0, [], fun _ => false⟩

/-- Environment: the Instaloader fetch raises `BadResponseException`. -/
def envBadResponse : Env := ⟨.badResponse, [], 0, [], fun _ => false⟩

/-- Environment: fetch succeeds with a matching file, ffmpeg exits 1. -/
def envFfmpegFail : Env := ⟨.ok, [⟨pyS "2024-01-01_SC1.mp4", true⟩], 1, pyS "boom", fun _ => false⟩

/-- The text of the video-format reply button. -/
def mp4Text : PyStr := pyS "MP4 🎥"

/-- The text of the audio-format reply button. -/
def mp3Text : PyStr := pyS "MP3 🎵"

/-- The spec's worked example message. -/
def specExampleText : PyStr := pyS "https://instagram.com/reel/ABC123?utm=x"

/-- A message whose pre-query part is a bare single-segment URL and whose
query part carries the `reel` keyword pattern. -/
def barePatternText : PyStr := pyS "https://instagram.com/X?u=instagram.com/reel/"

/-! ## Helper lemmas -/

/-- Every event emitted by `cleanup_directory` is a delete-failure log. -/
theorem mem_cleanup_events {env : Env} {fs : List FileEntry} {e : Event}
    (h : e ∈ (cleanup_directory env fs).1) : ∃ p, e = Event.logDeleteFail p := by
  induction fs with
  | nil => simp [cleanup_directory] at h
  | cons f rest ih =>
    revert h
    simp only [cleanup_directory]
    split
    · split
      · intro h
        rcases List.mem_cons.mp h with h1 | h2
        · exact ⟨_, h1⟩
        · exact ih h2
      · exact ih
    · exact ih

/-- The directory contents after `cleanup_directory`: exactly the non-regular
entries and the regular files whose unlink failed. -/
theorem cleanup_directory_fs (env : Env) (fs : List FileEntry) :
    (cleanup_directory env fs).2 =
      fs.filter (fun f => !f.regular || env.unlinkFails f.name) := by
  induction fs with
  | nil => simp [cleanup_directory]
  | cons f rest ih =>
    simp only [cleanup_directory, List.filter_cons]
    rcases hr : f.regular with _ | _ <;> rcases hu : env.unlinkFails f.name with _ | _ <;>
      simp [hr, hu, ih]

/-- The events of `cleanup_directory`: one delete-failure log per regular
file whose unlink failed, in directory order. -/
theorem cleanup_directory_events (env : Env) (fs : List FileEntry) :
    (cleanup_directory env fs).1 =
      (fs.filter (fun f => f.regular && env.unlinkFails f.name)).map
        (fun f => Event.logDeleteFail (pathJoin DOWNLOAD_DIR f.name)) := by
  induction fs with
  | nil => simp [cleanup_directory]
  | cons f rest ih =>
    simp only [cleanup_directory, List.filter_cons]
    rcases hr : f.regular with _ | _ <;> rcases hu : env.unlinkFails f.name with _ | _ <;>
      simp [hr, hu, ih]

/-- `withCleanup` always records the cleanup invocation, and leaves no
regular file behind whose unlink succeeds. -/
theorem withCleanup_spec (env : Env) (evs : List Event) (sessions : Sessions)
    (fs : List FileEntry) :
    Event.cleanupCall ∈ (withCleanup env evs sessions fs).events ∧
      ∀ f ∈ (withCleanup env evs sessions fs).fs, f.regular = true →
        env.unlinkFails f.name = true := by
  constructor
  · simp [withCleanup]
  · intro f hf hreg
    simp only [withCleanup, cleanup_directory_fs, List.mem_filter] at hf
    rcases hf with ⟨-, h2⟩
    rcases hu : env.unlinkFails f.name with _ | _
    · simp [hreg, hu] at h2
    · rfl

/-- The content-unavailable user message is never equal to a generic-error
message (they differ at the third character). -/
theorem instaMsg_ne_genericMsg (m : PyStr) :
    pyS "❌ Instagram error. The reel might be private or unavailable." ≠
      pyS "❌ Error: " ++ m := by
  intro h
  have hp : pyS "❌ Error: " <+:
      pyS "❌ Instagram error. The reel might be private or unavailable." := ⟨m, h.symm⟩
  exact absurd hp (by decide)

/-- The conversion-failure user message is never equal to a generic-error
message. -/
theorem convMsg_ne_genericMsg (m : PyStr) :
    pyS "❌ Audio conversion failed" ≠ pyS "❌ Error: " ++ m := by
  intro h
  have hp : pyS "❌ Error: " <+: pyS "❌ Audio conversion failed" := ⟨m, h.symm⟩
  exact absurd hp (by decide)

/-! ## Claims -/

/-- C1 (code_bug): the spec requires the three supported URL shapes to
extract, with the worked example `https://instagram.com/reel/ABC123?utm=x`
yielding `ABC123`.  On the code the example fails: the query-stripped URL
parses to path `/reel/ABC123`, `path.strip('/')` gives `reel/ABC123`, which
contains neither `/reel/` nor `/p/` and is not a single bare segment, so
`extract_shortcode` raises `ValueError("Couldn't extract reel shortcode")`;
the handler consequently replies with the invalid-URL message and stores no
session for the sender. -/
theorem extract_shortcode_fails_on_spec_example :
    clean_url specExampleText = pyS "https://instagram.com/reel/ABC123" ∧
    extract_shortcode (pyS "https://instagram.com/reel/ABC123") =
      Except.error (pyS "Couldn't extract reel shortcode") ∧
    (handle_reel_url 0 specExampleText (fun _ => none)).1 =
      [Event.logUrlError (pyS "Couldn't extract reel shortcode"),
       Event.replyTo (pyS "❌ Invalid Reel URL. Please send a valid public Instagram Reel link.")] ∧
    (handle_reel_url 0 specExampleText (fun _ => none)).2 0 = none := by
  refine ⟨by decide, by decide, ?_, ?_⟩ <;> decide

/-- C3 (counterexample): `evilinstagram.com` is neither `instagram.com` nor a
subdomain of it, yet `extract_shortcode` accepts the URL and returns an
identifier, because the code tests `netloc.endswith('instagram.com')`. -/
theorem extract_accepts_lookalike_host :
    urlparse (pyS "https://evilinstagram.com/x/reel/ABC123") =
      Except.ok ⟨pyS "https", pyS "evilinstagram.com", pyS "/x/reel/ABC123", [], [], []⟩ ∧
    pyS "evilinstagram.com" ≠ pyS "instagram.com" ∧
    ¬ (pyS ".instagram.com" <:+ pyS "evilinstagram.com") ∧
    extract_shortcode (pyS "https://evilinstagram.com/x/reel/ABC123") =
      Except.ok (pyS "ABC123") := by
  refine ⟨by decide, by decide, by decide, by decide⟩

/-- C3 (amended): for every URL whose parsed netloc does not end with the
literal character string `instagram.com` (rather than: is not instagram.com
or a subdomain of it), `extract_shortcode` raises the invalid-input error and
returns no identifier. -/
theorem extract_rejects_nonsuffix_host (url : PyStr) (parsed : ParseResult)
    (hp : urlparse url = Except.ok parsed)
    (h : ¬ (pyS "instagram.com" <:+ parsed.netloc)) :
    extract_shortcode url = Except.error (pyS "Invalid Instagram URL") := by
  have hw : ¬ (pyS "www.instagram.com" <:+ parsed.netloc) := by
    intro hh
    exact h ((show pyS "instagram.com" <:+ pyS "www.instagram.com" by decide).trans hh)
  have h2 : pyEndsWithAny parsed.netloc [pyS "instagram.com", pyS "www.instagram.com"] = false := by
    simp [pyEndsWithAny, pyEndsWith, h, hw]
  simp [extract_shortcode, hp, h2]

/-- Witness for `extract_rejects_nonsuffix_host` at `example.com`. -/
theorem extract_rejects_nonsuffix_host_witness :
    urlparse (pyS "https://example.com/reel/AB") =
      Except.ok ⟨pyS "https", pyS "example.com", pyS "/reel/AB", [], [], []⟩ ∧
    ¬ (pyS "instagram.com" <:+ pyS "example.com") ∧
    extract_shortcode (pyS "https://example.com/reel/AB") =
      Except.error (pyS "Invalid Instagram URL") :=
  ⟨by decide, by decide,
   extract_rejects_nonsuffix_host _
     ⟨pyS "https", pyS "example.com", pyS "/reel/AB", [], [], []⟩ (by decide) (by decide)⟩

/-- C9: when link parsing fails, `handle_reel_url` logs the error, replies
immediately with the invalid-URL message, and returns the session store
exactly as it was, for every conversation. -/
theorem parse_failure_no_mutation (chat : Nat) (text : PyStr) (sessions : Sessions)
    (e : PyStr) (h : extract_shortcode (clean_url text) = Except.error e) :
    handle_reel_url chat text sessions =
      ([Event.logUrlError e,
        Event.replyTo (pyS "❌ Invalid Reel URL. Please send a valid public Instagram Reel link.")],
       sessions) := by
  simp [handle_reel_url, h]

/-- Witness for `parse_failure_no_mutation`: the spec's own example URL makes
the extractor fail (cf. C1), and the store is unchanged. -/
theorem parse_failure_no_mutation_witness :
    extract_shortcode (clean_url specExampleText) =
      Except.error (pyS "Couldn't extract reel shortcode") ∧
    handle_reel_url 3 specExampleText sampleStore =
      ([Event.logUrlError (pyS "Couldn't extract reel shortcode"),
        Event.replyTo (pyS "❌ Invalid Reel URL. Please send a valid public Instagram Reel link.")],
       sampleStore) :=
  ⟨by decide, parse_failure_no_mutation 3 specExampleText sampleStore _ (by decide)⟩

/-- C10 (counterexample): the message `barePatternText` carries the keyword
pattern only in its query part, so it passes the handler filter, yet the
query-stripped URL `https://instagram.com/X` is of the bare single-segment
shape (its stripped path `X` contains neither `/reel/` nor `/p/`), and a
session with identifier `X` is created for the sender — refuting the claim
that no message ever creates a session from a bare-segment URL. -/
theorem bare_segment_session_created :
    handle_reel_url_fires barePatternText = true ∧
    clean_url barePatternText = pyS "https://instagram.com/X" ∧
    urlparse (pyS "https://instagram.com/X") =
      Except.ok ⟨pyS "https", pyS "instagram.com", pyS "/X", [], [], []⟩ ∧
    pyContains (pyS "/reel/") (pyS "X") = false ∧
    pyContains (pyS "/p/") (pyS "X") = false ∧
    (handle_reel_url 7 barePatternText (fun _ => none)).2 7 =
      some ⟨pyS "https://instagram.com/X", pyS "X"⟩ := by
  refine ⟨by decide, by decide, by decide, by decide, by decide, by decide⟩

/-- C10 (amended): the handler filter fires exactly for messages whose
lowered text contains one of the two keyworded patterns; this does not make
the bare-segment branch unreachable, because the pattern may lie in the query
part that is stripped before parsing: for every conversation and prior store,
message `barePatternText` fires the handler and installs a session whose
identifier is the bare path segment `X`. -/
theorem bare_segment_reachable (chat : Nat) (sessions : Sessions) :
    handle_reel_url_fires barePatternText = true ∧
    (handle_reel_url chat barePatternText sessions).2 =
      putSession chat ⟨pyS "https://instagram.com/X", pyS "X"⟩ sessions := by
  constructor
  · decide
  · have hc : clean_url barePatternText = pyS "https://instagram.com/X" := by decide
    have hx : extract_shortcode (pyS "https://instagram.com/X") = Except.ok (pyS "X") := by decide
    simp [handle_reel_url, hc, hx]

/-- Every path of `process_download` past the no-session guard ends in the
`finally` cleanup (`withCleanup`). -/
theorem process_download_is_cleanup_wrapped (env : Env) (chat : Nat) (text : PyStr)
    (sessions : Sessions) (fs : List FileEntry) (s : SessionData)
    (h : sessions chat = some s) :
    ∃ evs ss fsMid, process_download env chat text sessions fs = withCleanup env evs ss fsMid := by
  simp only [process_download, h]
  split
  · exact ⟨_, _, _, rfl⟩
  · exact ⟨_, _, _, rfl⟩
  · split
    · exact ⟨_, _, _, rfl⟩
    · split
      · exact ⟨_, _, _, rfl⟩
      · split
        · exact ⟨_, _, _, rfl⟩
        · exact ⟨_, _, _, rfl⟩

/-- The session store after `process_download`: popped on the success path,
untouched otherwise. -/
theorem process_download_sessions_eq (env : Env) (chat : Nat) (text : PyStr)
    (sessions : Sessions) (fs : List FileEntry) (s : SessionData)
    (h : sessions chat = some s) :
    (process_download env chat text sessions fs).sessions =
      if attemptSucceeds env text s.shortcode fs then popSession chat sessions
      else sessions := by
  obtain ⟨efetch, efetched, eexit, estderr, eunlink⟩ := env
  cases efetch with
  | badResponse => simp [process_download, attemptSucceeds, h, withCleanup]
  | genericErr m => simp [process_download, attemptSucceeds, h, withCleanup]
  | ok =>
    simp only [process_download, attemptSucceeds, h]
    split
    · rename_i heq
      simp [heq, withCleanup]
    · rename_i name heq
      by_cases hv : pyContains (pyS "MP4") text = true
      · simp [heq, hv, withCleanup]
      · by_cases hz : eexit = 0
        · simp [heq, hv, hz, withCleanup]
        · simp [heq, hv, hz, withCleanup]

/-- C2 (counterexample): an attempt that ends in the handled
content-unavailable error leaves the session entry in place — refuting the
claim that the entry is absent after a handled error of any class. -/
theorem session_retained_after_failed_attempt :
    Event.replyTo (pyS "❌ Instagram error. The reel might be private or unavailable.") ∈
      (process_download envBadResponse 1 mp4Text sampleStore []).events ∧
    (process_download envBadResponse 1 mp4Text sampleStore []).sessions 1 =
      some sampleSession := by
  refine ⟨by decide, by decide⟩

/-- C2 (amended): after a successful attempt the session entry for the
conversation is absent; after an attempt that ends in a handled error
(content unavailable, missing file, conversion failure, or a generic fetch
error) the entry is unchanged — still present; entries of other
conversations are never touched. -/
theorem session_lifecycle (env : Env) (chat : Nat) (text : PyStr)
    (sessions : Sessions) (fs : List FileEntry) (s : SessionData)
    (h : sessions chat = some s) :
    ((process_download env chat text sessions fs).sessions chat =
      if attemptSucceeds env text s.shortcode fs then none else some s) ∧
    ∀ id, id ≠ chat → (process_download env chat text sessions fs).sessions id = sessions id := by
  have hc := process_download_sessions_eq env chat text sessions fs s h
  constructor
  · rw [hc]
    rcases ha : attemptSucceeds env text s.shortcode fs with _ | _
    · simp [ha, h]
    · simp [ha, popSession]
  · intro id hid
    rw [hc]
    rcases ha : attemptSucceeds env text s.shortcode fs with _ | _ <;>
      simp [ha, popSession, hid]

/-- Witness for `session_lifecycle`: a fully successful video attempt pops
the session. -/
theorem session_lifecycle_witness :
    sampleStore 1 = some sampleSession ∧
    (process_download envOkVideo 1 mp4Text sampleStore []).sessions 1 =
      (if attemptSucceeds envOkVideo mp4Text sampleSession.shortcode [] then none
       else some sampleSession) :=
  ⟨rfl, (session_lifecycle envOkVideo 1 mp4Text sampleStore [] sampleSession rfl).1⟩

/-- C4: when the fetch reports success but no directory entry matches
`shortcode` + `.mp4`, the raised `FileNotFoundError("Downloaded file not
found")` is caught by the generic handler and reported as a download
failure; no video or audio is ever delivered, and cleanup still runs.
(As written, source lines 139-143 do not parse — the `next(` call is missing
its closing parenthesis — so the program cannot reach this path at all; the
theorem is about the evident intent, cf. `findVideoFile`.) -/
theorem missing_file_reported (env : Env) (chat : Nat) (text : PyStr)
    (sessions : Sessions) (fs : List FileEntry) (s : SessionData)
    (h : sessions chat = some s) (hf : env.fetch = .ok)
    (hn : findVideoFile s.shortcode (fs ++ env.fetched) = none) :
    Event.replyTo (pyS "❌ Error: " ++ pyS "Downloaded file not found") ∈
      (process_download env chat text sessions fs).events ∧
    (∀ n c, Event.sendVideo n c ∉ (process_download env chat text sessions fs).events) ∧
    (∀ n t, Event.sendAudio n t ∉ (process_download env chat text sessions fs).events) ∧
    Event.cleanupCall ∈ (process_download env chat text sessions fs).events := by
  simp only [process_download, h]
  rw [hf, hn]
  simp only [withCleanup]
  refine ⟨by simp, ?_, ?_, by simp⟩
  · intro n c hmem
    simp [List.mem_append] at hmem
    rcases mem_cleanup_events hmem with ⟨p, hp⟩
    exact Event.noConfusion hp
  · intro n t hmem
    simp [List.mem_append] at hmem
    rcases mem_cleanup_events hmem with ⟨p, hp⟩
    exact Event.noConfusion hp

/-- Witness for `missing_file_reported`. -/
theorem missing_file_reported_witness :
    sampleStore 1 = some sampleSession ∧
    envNoFile.fetch = FetchOutcome.ok ∧
    findVideoFile sampleSession.shortcode ([] ++ envNoFile.fetched) = none ∧
    Event.replyTo (pyS "❌ Error: " ++ pyS "Downloaded file not found") ∈
      (process_download envNoFile 1 mp4Text sampleStore []).events ∧
    Event.cleanupCall ∈ (process_download envNoFile 1 mp4Text sampleStore []).events :=
  ⟨rfl, rfl, by decide,
   (missing_file_reported envNoFile 1 mp4Text sampleStore [] sampleSession rfl rfl (by decide)).1,
   (missing_file_reported envNoFile 1 mp4Text sampleStore [] sampleSession rfl rfl (by decide)).2.2.2⟩

/-- C5: `cleanup_directory` enumerates the scratch directory and deletes
every regular file, logging (and not raising on) each per-file unlink
failure — the final contents are exactly the non-regular entries plus the
regular files whose unlink failed, and the emitted events are exactly one
delete-failure log per failed unlink; and after every download attempt (any
path past the no-session guard) the cleanup step runs, so no regular file
with a succeeding unlink remains in the scratch directory. -/
theorem cleanup_always_runs :
    (∀ env fs,
      (cleanup_directory env fs).2 =
        fs.filter (fun f => !f.regular || env.unlinkFails f.name) ∧
      (cleanup_directory env fs).1 =
        (fs.filter (fun f => f.regular && env.unlinkFails f.name)).map
          (fun f => Event.logDeleteFail (pathJoin DOWNLOAD_DIR f.name))) ∧
    ∀ env chat text sessions fs s, sessions chat = some s →
      Event.cleanupCall ∈ (process_download env chat text sessions fs).events ∧
      ∀ f ∈ (process_download env chat text sessions fs).fs,
        f.regular = true → env.unlinkFails f.name = true := by
  constructor
  · exact fun env fs => ⟨cleanup_directory_fs env fs, cleanup_directory_events env fs⟩
  · intro env chat text sessions fs s h
    obtain ⟨evs, ss, fsMid, heq⟩ :=
      process_download_is_cleanup_wrapped env chat text sessions fs s h
    rw [heq]
    exact withCleanup_spec env evs ss fsMid

/-- Witness for `cleanup_always_runs`. -/
theorem cleanup_always_runs_witness :
    (cleanup_directory envOkVideo [⟨pyS "a.mp4", true⟩, ⟨pyS "sub", false⟩]).2 =
      ([⟨pyS "a.mp4", true⟩, ⟨pyS "sub", false⟩] : List FileEntry).filter
        (fun f => !f.regular || envOkVideo.unlinkFails f.name) ∧
    sampleStore 1 = some sampleSession ∧
    Event.cleanupCall ∈ (process_download envOkVideo 1 mp4Text sampleStore []).events :=
  ⟨(cleanup_always_runs.1 envOkVideo [⟨pyS "a.mp4", true⟩, ⟨pyS "sub", false⟩]).1, rfl,
   (cleanup_always_runs.2 envOkVideo 1 mp4Text sampleStore [] sampleSession rfl).1⟩

/-- C6: a non-zero ffmpeg exit status raises `CalledProcessError`, whose
handler logs the captured stderr and replies with the conversion-failure
message — a message distinct from the content-unavailable and generic
messages — no audio is delivered, and cleanup still runs. -/
theorem conversion_failure_reported (env : Env) (chat : Nat) (text : PyStr)
    (sessions : Sessions) (fs : List FileEntry) (s : SessionData) (name : PyStr)
    (h : sessions chat = some s) (hf : env.fetch = .ok)
    (hv : pyContains (pyS "MP4") text = false)
    (hn : findVideoFile s.shortcode (fs ++ env.fetched) = some name)
    (he : env.ffmpegExit ≠ 0) :
    Event.logFfmpegStderr env.ffmpegStderr ∈
      (process_download env chat text sessions fs).events ∧
    Event.replyTo (pyS "❌ Audio conversion failed") ∈
      (process_download env chat text sessions fs).events ∧
    Event.cleanupCall ∈ (process_download env chat text sessions fs).events ∧
    (∀ n t, Event.sendAudio n t ∉ (process_download env chat text sessions fs).events) ∧
    pyS "❌ Audio conversion failed" ≠
      pyS "❌ Instagram error. The reel might be private or unavailable." ∧
    (∀ m, pyS "❌ Audio conversion failed" ≠ pyS "❌ Error: " ++ m) := by
  simp only [process_download, h]
  rw [hf, hn]
  simp only [hv, Bool.false_eq_true, if_false, if_neg he, withCleanup]
  refine ⟨by simp, by simp, by simp, ?_, by decide, convMsg_ne_genericMsg⟩
  intro n t hmem
  simp [List.mem_append] at hmem
  rcases mem_cleanup_events hmem with ⟨p, hp⟩
  exact Event.noConfusion hp

/-- Witness for `conversion_failure_reported`. -/
theorem conversion_failure_reported_witness :
    sampleStore 1 = some sampleSession ∧
    envFfmpegFail.fetch = FetchOutcome.ok ∧
    pyContains (pyS "MP4") mp3Text = false ∧
    findVideoFile sampleSession.shortcode ([] ++ envFfmpegFail.fetched) =
      some (pyS "2024-01-01_SC1.mp4") ∧
    envFfmpegFail.ffmpegExit ≠ 0 ∧
    Event.logFfmpegStderr envFfmpegFail.ffmpegStderr ∈
      (process_download envFfmpegFail 1 mp3Text sampleStore []).events ∧
    Event.replyTo (pyS "❌ Audio conversion failed") ∈
      (process_download envFfmpegFail 1 mp3Text sampleStore []).events :=
  ⟨rfl, rfl, by decide, by decide, by decide,
   (conversion_failure_reported envFfmpegFail 1 mp3Text sampleStore [] sampleSession
      (pyS "2024-01-01_SC1.mp4") rfl rfl (by decide) (by decide) (by decide)).1,
   (conversion_failure_reported envFfmpegFail 1 mp3Text sampleStore [] sampleSession
      (pyS "2024-01-01_SC1.mp4") rfl rfl (by decide) (by decide) (by decide)).2.1⟩

/-- C8: the content-unavailable error class (Instaloader
`BadResponseException`) is reported with its own content-specific message,
while a generic exception is reported with the generic message carrying the
error text; neither class ever receives the other's message. -/
theorem error_classes_distinct (env : Env) (chat : Nat) (text : PyStr)
    (sessions : Sessions) (fs : List FileEntry) (s : SessionData)
    (h : sessions chat = some s) :
    (env.fetch = FetchOutcome.badResponse →
      Event.replyTo (pyS "❌ Instagram error. The reel might be private or unavailable.") ∈
        (process_download env chat text sessions fs).events ∧
      ∀ m, Event.replyTo (pyS "❌ Error: " ++ m) ∉
        (process_download env chat text sessions fs).events) ∧
    (∀ em, env.fetch = FetchOutcome.genericErr em →
      Event.replyTo (pyS "❌ Error: " ++ em) ∈
        (process_download env chat text sessions fs).events ∧
      Event.replyTo (pyS "❌ Instagram error. The reel might be private or unavailable.") ∉
        (process_download env chat text sessions fs).events) := by
  constructor
  · intro hf
    simp only [process_download, h]
    rw [hf]
    simp only [withCleanup]
    refine ⟨by simp, ?_⟩
    intro m hmem
    simp [List.mem_append] at hmem
    rcases hmem with hmem | hmem
    · exact instaMsg_ne_genericMsg m hmem.symm
    · rcases mem_cleanup_events hmem with ⟨p, hp⟩
      exact Event.noConfusion hp
  · intro em hf
    simp only [process_download, h]
    rw [hf]
    simp only [withCleanup]
    refine ⟨by simp, ?_⟩
    intro hmem
    simp [List.mem_append] at hmem
    rcases hmem with hmem | hmem
    · exact instaMsg_ne_genericMsg em hmem
    · rcases mem_cleanup_events hmem with ⟨p, hp⟩
      exact Event.noConfusion hp

/-- Witness for `error_classes_distinct`. -/
theorem error_classes_distinct_witness :
    sampleStore 1 = some sampleSession ∧
    envBadResponse.fetch = FetchOutcome.badResponse ∧
    Event.replyTo (pyS "❌ Instagram error. The reel might be private or unavailable.") ∈
      (process_download envBadResponse 1 mp3Text sampleStore []).events :=
  ⟨rfl, rfl,
   ((error_classes_distinct envBadResponse 1 mp3Text sampleStore [] sampleSession rfl).1 rfl).1⟩

/-- C7: a format reply with no pending session gets the precondition-error
reply and nothing else happens: the run is exactly that one reply, with the
session store and the scratch directory untouched (in particular no fetch,
transcode or delivery event occurs, and cleanup is not even reached). -/
theorem no_session_precondition (env : Env) (chat : Nat) (text : PyStr)
    (sessions : Sessions) (fs : List FileEntry) (h : sessions chat = none) :
    process_download env chat text sessions fs =
      ⟨[Event.replyTo (pyS "⚠ Please send a Reel link first")], sessions, fs⟩ := by
  simp only [process_download, h]

/-- Witness for `no_session_precondition`. -/
theorem no_session_precondition_witness :
    ((fun _ => none : Sessions) 2 = none) ∧
    process_download envOkVideo 2 mp4Text (fun _ => none) [] =
      ⟨[Event.replyTo (pyS "⚠ Please send a Reel link first")], (fun _ => none), []⟩ :=
  ⟨rfl, no_session_precondition envOkVideo 2 mp4Text (fun _ => none) [] rfl⟩

end Doninsta
